import Mathlib

/-!
Verification of the Disaster Intelligence Agent's normalization-and-trust
pipeline. The repository ships the frontend component
(src/frontend/src/components/DisasterAgent.jsx); its request construction,
platform-icon lookup and submit gating are embedded directly from that
source. The backend pipeline (platform classifier, oracle adapter, location
resolver, donation/scam detector, freshness analyzer, credibility scoring
engine, result assembler) is not present in the repository sources, so those
components are modelled from the specification, as flagged on each
definition.
-/

/-! ## String helpers (character-level, kernel-reducible) -/

/-- True when the pattern occurs as a contiguous substring of the string. -/
def strContains (s pat : String) : Bool :=
  s.toList.tails.any (fun t => pat.toList.isPrefixOf t)

/-- True when the string is empty or consists only of whitespace; this is
exactly JavaScript falsiness of the trimmed string used by handleSubmit. -/
def strBlank (s : String) : Bool :=
  s.toList.all (fun c => c.isWhitespace)

/-- Lower-casing, character by character. -/
def lowerString (s : String) : String :=
  String.mk (s.toList.map Char.toLower)

/-! ## Frontend embedding (from src/frontend/src/components/DisasterAgent.jsx) -/

/-- One entry of the PLATFORM_ICONS display table. -/
structure IconConfig where
  icon : String
  color : String
deriving DecidableEq, Repr

/-- The `web` entry of PLATFORM_ICONS, used as the fallback by
getPlatformDisplay. -/
def webIcon : IconConfig := ⟨"🌐", "bg-slate-600"⟩

/-- Platform config for display, embedded verbatim from the PLATFORM_ICONS
object literal of DisasterAgent.jsx. -/
def PLATFORM_ICONS : List (String × IconConfig) := [
  ("usgs", ⟨"🏛️", "bg-emerald-600"⟩),
  ("noaa", ⟨"🌀", "bg-blue-700"⟩),
  ("fema", ⟨"🏛️", "bg-blue-800"⟩),
  ("reuters", ⟨"📰", "bg-orange-600"⟩),
  ("ap_news", ⟨"AP", "bg-red-600"⟩),
  ("bbc", ⟨"📻", "bg-red-800"⟩),
  ("cnn", ⟨"📺", "bg-red-700"⟩),
  ("nytimes", ⟨"📰", "bg-slate-700"⟩),
  ("twitter", ⟨"𝕏", "bg-black"⟩),
  ("reddit", ⟨"⬆️", "bg-orange-500"⟩),
  ("facebook", ⟨"f", "bg-blue-600"⟩),
  ("instagram", ⟨"📷", "bg-gradient-to-br from-purple-600 to-pink-500"⟩),
  ("youtube", ⟨"▶️", "bg-red-600"⟩),
  ("tiktok", ⟨"♪", "bg-black"⟩),
  ("image_upload", ⟨"🖼️", "bg-purple-600"⟩),
  ("image_url", ⟨"🖼️", "bg-purple-600"⟩),
  ("user_report", ⟨"👤", "bg-indigo-600"⟩),
  ("web", webIcon)]

/-- Embeds getPlatformDisplay: property access PLATFORM_ICONS[platform]
falling back to PLATFORM_ICONS.web when the key is absent or the platform
is undefined. -/
def getPlatformDisplay (platform : Option String) : IconConfig :=
  match platform.bind (fun p => PLATFORM_ICONS.lookup p) with
  | some c => c
  | none => webIcon

/-- The three input tabs of the frontend form. -/
inductive InputMode
  | text
  | url
  | image
deriving DecidableEq, Repr

/-- JSON body `\x7b text, source \x7d` posted to the /analyze endpoint. -/
structure AnalyzeBody where
  text : String
  source : String
deriving DecidableEq, Repr

/-- The HTTP request handleSubmit can issue: POST /analyze with a JSON body,
POST /analyze-image-upload with the selected file, or POST /analyze-image
with an image URL. The file blob is stood in for by its name. -/
inductive FrontendRequest
  | analyze (body : AnalyzeBody)
  | analyzeImageUpload (file : String)
  | analyzeImage (image_url : String)
deriving DecidableEq, Repr

/-- Embeds the request-selection logic of handleSubmit: text mode requires a
non-blank text (JS truthiness of textInput.trim()), URL mode a non-blank URL,
image mode prefers the uploaded file and otherwise needs a non-empty image
URL (JS truthiness of imageUrl, not trimmed). When no branch fires, no
request is issued. -/
def buildRequest (inputMode : InputMode) (textInput urlInput imageUrl : String)
    (imageFile : Option String) : Option FrontendRequest :=
  match inputMode with
  | .text => if strBlank textInput then none else some (.analyze ⟨textInput, "user"⟩)
  | .url => if strBlank urlInput then none else some (.analyze ⟨urlInput, "web"⟩)
  | .image =>
    match imageFile with
    | some f => some (.analyzeImageUpload f)
    | none => if imageUrl == "" then none else some (.analyzeImage imageUrl)

/-- Embeds the submit button's disabled condition:
loading || (!textInput && !urlInput && !imageUrl && !imageFile). -/
def submitDisabled (loading : Bool) (textInput urlInput imageUrl : String)
    (imageFile : Option String) : Bool :=
  loading || (textInput == "" && urlInput == "" && imageUrl == "" && imageFile == none)

/-- Embeds the effect of one handleSubmit run on the `result` state: result
is cleared to null first; if no request is issued it stays null; otherwise
it becomes the server's data on success or an error record on failure. -/
def handleSubmitResult {α : Type} (inputMode : InputMode)
    (textInput urlInput imageUrl : String) (imageFile : Option String)
    (server : FrontendRequest → Except String α) : Option (Except String α) :=
  match buildRequest inputMode textInput urlInput imageUrl imageFile with
  | none => none
  | some req => some (server req)

/-! ## Platform Classifier (spec §4.1) -/

/-- A source trust profile per spec §3. -/
structure SourceProfile where
  platform_key : String
  trust_tier : Nat
  is_official : Bool
  display_name : String
deriving DecidableEq, Repr

/-- Modelled from the spec: the default low-trust profile for unknown URL or
web identifiers (§4.1), platform_key "web", trust_tier 5, not official. -/
def webProfile : SourceProfile := ⟨"web", 5, false, "Web"⟩

/-- Modelled from the spec: the default low-trust profile for an absent
source identifier (§4.1), platform_key "user_report", trust_tier 5, not
official. -/
def userReportProfile : SourceProfile := ⟨"user_report", 5, false, "User Report"⟩

/-- Modelled from the spec: the backend Platform Classifier's static table
(§4.1), absent from the repository sources. Keys follow the frontend's
PLATFORM_ICONS table; tiers follow §3 and Scenarios A/B (official agencies
tier 1 and official, named news outlets tier 2, social platforms tier 5). -/
def PLATFORM_TABLE : List (String × SourceProfile) := [
  ("usgs", ⟨"usgs", 1, true, "USGS"⟩),
  ("noaa", ⟨"noaa", 1, true, "NOAA"⟩),
  ("fema", ⟨"fema", 1, true, "FEMA"⟩),
  ("reuters", ⟨"reuters", 2, false, "Reuters"⟩),
  ("ap_news", ⟨"ap_news", 2, false, "AP News"⟩),
  ("bbc", ⟨"bbc", 2, false, "BBC"⟩),
  ("cnn", ⟨"cnn", 2, false, "CNN"⟩),
  ("nytimes", ⟨"nytimes", 2, false, "New York Times"⟩),
  ("twitter", ⟨"twitter", 5, false, "Twitter/X"⟩),
  ("reddit", ⟨"reddit", 5, false, "Reddit"⟩),
  ("facebook", ⟨"facebook", 5, false, "Facebook"⟩),
  ("instagram", ⟨"instagram", 5, false, "Instagram"⟩),
  ("youtube", ⟨"youtube", 5, false, "YouTube"⟩),
  ("tiktok", ⟨"tiktok", 5, false, "TikTok"⟩),
  ("image_upload", ⟨"image_upload", 5, false, "Image Upload"⟩),
  ("image_url", ⟨"image_url", 5, false, "Image URL"⟩),
  ("user_report", userReportProfile),
  ("web", webProfile)]

/-- Modelled from the spec: the backend Platform Classifier (§4.1), absent
from the repository sources. Normalizes the identifier to lower case, takes
the first exact match in the static table, and resolves any miss to the
default low-trust profile; a null identifier resolves to the user-report
default. Total and pure, no failure mode. -/
def classifyPlatform : Option String → SourceProfile
  | none => userReportProfile
  | some s =>
    match PLATFORM_TABLE.lookup (lowerString s) with
    | some p => p
    | none => webProfile

/-! ## Classification Oracle Adapter (spec §4.2) -/

/-- Disaster type enum per spec §3. -/
inductive DisasterType
  | earthquake
  | flood
  | hurricane
  | wildfire
  | tsunami
  | landslide
  | other
  | unknown
deriving DecidableEq, Repr

/-- Need type enum per spec §3. -/
inductive NeedType
  | medical
  | food
  | rescue
  | shelter
  | water
  | other
  | unknown
deriving DecidableEq, Repr

/-- Urgency enum per spec §3. -/
inductive Urgency
  | critical
  | high
  | medium
  | low
deriving DecidableEq, Repr

/-- The validated classification record per spec §3. The source's confidence
float in [0,1] is embedded as integer hundredths in [0,100]. -/
structure ClassificationResult where
  disaster_type : DisasterType
  need_type : NeedType
  urgency : Urgency
  confidence_pct : Nat
  people_estimates : List (String × Nat)
  location_raw_text : Option String
  contact_info : Option String
deriving DecidableEq, Repr

/-- Modelled from the spec: the untrusted structured response of the external
classification oracle before validation (§4.2); every field may be missing or
out of range, confidence again in hundredths. -/
structure OracleRaw where
  disaster_type : Option String
  need_type : Option String
  urgency : Option String
  confidence_pct : Option Int
  people_estimates : List (String × Int)
  location_raw_text : Option String
  contact_info : Option String
deriving DecidableEq, Repr

/-- Modelled from the spec: enum coercion for disaster_type, unrecognized
values degrade to unknown (§4.2). -/
def parseDisasterType (s : String) : DisasterType :=
  if s = "earthquake" then .earthquake
  else if s = "flood" then .flood
  else if s = "hurricane" then .hurricane
  else if s = "wildfire" then .wildfire
  else if s = "tsunami" then .tsunami
  else if s = "landslide" then .landslide
  else if s = "other" then .other
  else .unknown

/-- Modelled from the spec: enum coercion for need_type, unrecognized values
degrade to unknown (§4.2). -/
def parseNeedType (s : String) : NeedType :=
  if s = "medical" then .medical
  else if s = "food" then .food
  else if s = "rescue" then .rescue
  else if s = "shelter" then .shelter
  else if s = "water" then .water
  else if s = "other" then .other
  else .unknown

/-- Modelled from the spec: enum coercion for urgency; unrecognized values
map to the low default (§4.2, Scenario E). -/
def parseUrgency (s : String) : Urgency :=
  if s = "critical" then .critical
  else if s = "high" then .high
  else if s = "medium" then .medium
  else .low

/-- The allowed people-estimate categories per spec §3. -/
def PEOPLE_KEYS : List String :=
  ["affected", "displaced", "dead", "injured", "evacuated", "missing"]

/-- Modelled from the spec: the Classification Oracle Adapter's validation
step (§4.2), absent from the repository sources. A transport-level failure
(no response) yields the all-unknown result with confidence 0; otherwise
every enum is coerced with unknown defaults, confidence is clamped to range,
and people estimates keep only known categories with non-negative counts. -/
def validateOracle : Option OracleRaw → ClassificationResult
  | none => ⟨.unknown, .unknown, .low, 0, [], none, none⟩
  | some r =>
    ⟨(r.disaster_type.map parseDisasterType).getD .unknown,
     (r.need_type.map parseNeedType).getD .unknown,
     (r.urgency.map parseUrgency).getD .low,
     min (r.confidence_pct.getD 0).toNat 100,
     (r.people_estimates.filter
       (fun p => PEOPLE_KEYS.contains p.1 && decide (0 ≤ p.2))).map
       (fun p => (p.1, p.2.toNat)),
     r.location_raw_text,
     r.contact_info⟩

/-! ## Location Resolver (spec §4.3) -/

/-- Location resolution state per spec §3. -/
inductive ResolutionState
  | coordinates_resolved
  | text_only
  | unresolved
deriving DecidableEq, Repr

/-- Resolved location record per spec §3; coordinates embedded as rationals. -/
structure ResolvedLocation where
  raw_text : Option String
  city : Option String
  region : Option String
  country : Option String
  latitude : Option Rat
  longitude : Option Rat
  resolution_state : ResolutionState
deriving DecidableEq, Repr

/-- Splits a character list at commas. -/
def splitCommaList : List Char → List (List Char)
  | [] => [[]]
  | ',' :: rest => [] :: splitCommaList rest
  | c :: rest =>
    match splitCommaList rest with
    | [] => [[c]]
    | h :: t => (c :: h) :: t

/-- Drops surrounding whitespace from a character list. -/
def trimChars (l : List Char) : List Char :=
  ((l.dropWhile Char.isWhitespace).reverse.dropWhile Char.isWhitespace).reverse

/-- Modelled from the spec: structured extraction of city, region and
country from a location mention (§4.3), by comma-separated pattern
matching. -/
def splitLocationParts (t : String) : Option String × Option String × Option String :=
  match (splitCommaList t.toList).map (fun l => String.mk (trimChars l)) with
  | [] => (none, none, none)
  | [c] => (some c, none, none)
  | [c, r] => (some c, some r, none)
  | c :: r :: k :: _ => (some c, some r, some k)

/-- Modelled from the spec: the Location Resolver (§4.3), absent from the
repository sources. A null mention is unresolved with all fields null;
otherwise city, region and country are extracted from the text, and the
external geocoder either yields both coordinates (coordinates_resolved) or
nothing (text_only, coordinates stay null, not an error). -/
def resolveLocation (raw : Option String)
    (geocoder : String → Option (Rat × Rat)) : ResolvedLocation :=
  match raw with
  | none => ⟨none, none, none, none, none, none, .unresolved⟩
  | some t =>
    let parts := splitLocationParts t
    match geocoder t with
    | some pr => ⟨some t, parts.1, parts.2.1, parts.2.2, some pr.1, some pr.2, .coordinates_resolved⟩
    | none => ⟨some t, parts.1, parts.2.1, parts.2.2, none, none, .text_only⟩

/-! ## Donation/Scam Detector (spec §4.4) -/

/-- Donation trust verdict per spec §3. -/
inductive DonationTrust
  | none_found
  | verified
  | unverified
  | scam_likely
deriving DecidableEq, Repr

/-- Donation analysis record per spec §3; match sets as lists of labels. -/
structure DonationAnalysisResult where
  donation_trust : DonationTrust
  scam_indicators_found : List String
  legitimate_charities_found : List String
deriving DecidableEq, Repr

/-- Modelled from the spec: URL-like tokens and named payment-platform
mentions the detector scans for (§4.4 step 1). -/
def URL_PAYMENT_TOKENS : List String :=
  ["http://", "https://", "www.", ".com", ".org", ".net",
   "gofundme", "paypal", "venmo", "cashapp", "bitcoin", "crypto"]

/-- The URL-like or payment-platform tokens detected in a text, scanned case
insensitively. -/
def detectedPaymentTokens (text : String) : List String :=
  URL_PAYMENT_TOKENS.filter (fun tok => strContains (lowerString text) tok)

/-- Modelled from the spec: the static allowlist of known legitimate charity
domains (§4.4 step 2). -/
def CHARITY_ALLOWLIST : List String :=
  ["redcross.org", "unicef.org", "directrelief.org", "salvationarmy.org",
   "who.int", "savethechildren.org"]

/-- Modelled from the spec: the static denylist of known scam indicator
patterns — suspicious TLDs and urgency-plus-payment phrasing (§4.4 step 2). -/
def SCAM_DENYLIST : List String :=
  ["urgent-donate", "disaster-relief-now", ".tk", ".ml", ".ga",
   "send btc", "crypto wallet", "wire transfer only", "act now donate"]

/-- Modelled from the spec: the Donation/Scam Detector (§4.4), absent from
the repository sources. No URL-like or payment token detected yields the
none_found verdict with empty match sets; otherwise both pattern sets are
matched and the verdict is resolved by priority — any denylist match gives
scam_likely, else any allowlist match gives verified, else unverified — with
both match sets reported either way. -/
def analyzeDonations (text : String) : DonationAnalysisResult :=
  if detectedPaymentTokens text = [] then ⟨.none_found, [], []⟩
  else
    let scams := SCAM_DENYLIST.filter (fun p => strContains (lowerString text) p)
    let charities := CHARITY_ALLOWLIST.filter (fun p => strContains (lowerString text) p)
    ⟨if scams ≠ [] then .scam_likely
      else if charities ≠ [] then .verified
      else .unverified,
     scams, charities⟩

/-! ## Freshness Analyzer (spec §4.5) -/

/-- Freshness verdict per spec §3. -/
inductive FreshnessVerdict
  | current
  | potentially_outdated
deriving DecidableEq, Repr

/-- Freshness assessment record per spec §3. -/
structure FreshnessAssessmentResult where
  freshness : FreshnessVerdict
  warning : Option String
deriving DecidableEq, Repr

/-- Modelled from the spec: phrasing indicating a historical or retrospective
event (§4.5). -/
def HISTORICAL_PHRASES : List String :=
  ["remember when", "anniversary", "on this day in", "throwback",
   "years ago today", "last year's disaster"]

/-- Modelled from the spec: relative-time phrases and the age in days each
one places the event before the intake timestamp (§4.5). -/
def RELATIVE_AGE_PHRASES : List (String × Nat) :=
  [("breaking", 0), ("just now", 0), ("today", 0), ("yesterday", 1),
   ("days ago", 3), ("last week", 7), ("two weeks ago", 14),
   ("last month", 30), ("last year", 365)]

/-- Modelled from the spec: the configured staleness threshold in days
(§4.5; example value 14). -/
def STALENESS_THRESHOLD_DAYS : Nat := 14

/-- The historical-phrasing cues detected in a text, case insensitively. -/
def detectedHistoricalPhrases (text : String) : List String :=
  HISTORICAL_PHRASES.filter (fun p => strContains (lowerString text) p)

/-- The age in days suggested by detected relative-time phrases, none when no
such phrase occurs; with several cues the oldest wins. -/
def extractedAgeDays (text : String) : Option Nat :=
  match (RELATIVE_AGE_PHRASES.filter
      (fun p => strContains (lowerString text) p.1)).map (fun p => p.2) with
  | [] => none
  | a :: rest => some (rest.foldl max a)

/-- Modelled from the spec: the Freshness Analyzer (§4.5), absent from the
repository sources. Historical phrasing, or a temporal cue dating the event
beyond the staleness threshold, marks the report potentially_outdated with a
warning naming the detected cue; otherwise — in particular when no temporal
cue at all is detected — the report is current with a null warning. -/
def analyzeFreshness (text : String) : FreshnessAssessmentResult :=
  match detectedHistoricalPhrases text with
  | c :: _ => ⟨.potentially_outdated, some ("Historical phrasing detected: " ++ c)⟩
  | [] =>
    match extractedAgeDays text with
    | some d =>
      if STALENESS_THRESHOLD_DAYS < d then
        ⟨.potentially_outdated, some "Temporal cue exceeds the staleness threshold"⟩
      else ⟨.current, none⟩
    | none => ⟨.current, none⟩

/-! ## Credibility Scoring Engine (spec §4.6) -/

/-- Credibility status enum per spec §3. -/
inductive CredStatus
  | verified
  | likely_credible
  | needs_verification
  | suspicious
  | likely_fake
deriving DecidableEq, Repr

/-- One labeled, signed contribution to the trust percentage (spec §3). -/
structure CredFactor where
  factor : String
  positive : Bool
  impact : Int
deriving DecidableEq, Repr

/-- Credibility assessment record per spec §3. -/
structure CredibilityAssessmentResult where
  percentage : Int
  status : CredStatus
  factors : List CredFactor
  recommendation : String
deriving DecidableEq, Repr

/-- Modelled from the spec: the fixed scoring baseline (§4.6). -/
def CRED_BASELINE : Int := 50

/-- Modelled from the spec: the source tier factor impact (§4.6) — tier 1
+30, tier 2 +15, tier 3 0, tier 4 −10, tier 5 −15. -/
def sourceTierImpact (tier : Nat) : Int :=
  if tier = 1 then 30
  else if tier = 2 then 15
  else if tier = 3 then 0
  else if tier = 4 then -10
  else -15

/-- Modelled from the spec: the oracle confidence factor impact (§4.6),
round((confidence − 0.5) × 40) with confidence embedded as hundredths; the
rounding ⌊x + 1/2⌋ becomes the floor division below. -/
def confidenceImpact (c : Nat) : Int := Int.fdiv (4 * ((c : Int) - 50) + 5) 10

/-- Content specificity classification feeding the scoring engine (§4.6). -/
inductive ContentSpecificity
  | specific
  | vague
  | neutral
deriving DecidableEq, Repr

/-- Modelled from the spec: content specificity of a text (§4.6) — concrete
specifics (a named place or numeric figures) count as specific, purely
exclamatory text with no verifiable detail as vague, anything else neutral. -/
def contentSpecificityOf (text : String) (hasLocation : Bool) : ContentSpecificity :=
  if hasLocation || text.toList.any (fun c => c.isDigit) then .specific
  else if text.toList.any (fun c => c == '!') then .vague
  else .neutral

/-- Modelled from the spec: the content specificity factor impact (§4.6). -/
def specificityImpact : ContentSpecificity → Int
  | .specific => 5
  | .vague => -5
  | .neutral => 0

/-- Modelled from the spec: the scam indicator factor impact (§4.6) — −25
for scam_likely, +10 for verified, 0 otherwise. -/
def scamImpact : DonationTrust → Int
  | .scam_likely => -25
  | .verified => 10
  | .none_found => 0
  | .unverified => 0

/-- Modelled from the spec: the freshness factor impact (§4.6). -/
def freshnessImpact : FreshnessVerdict → Int
  | .potentially_outdated => -10
  | .current => 0

/-- Modelled from the spec: the ordered factor list (§4.6); every factor
appends one entry with its signed impact, except the official-source bonus
whose entry is omitted when its impact is zero. -/
def credFactors (profile : SourceProfile) (confidence_pct : Nat)
    (spc : ContentSpecificity) (dt : DonationTrust)
    (fv : FreshnessVerdict) : List CredFactor :=
  [⟨"Source tier", decide (0 ≤ sourceTierImpact profile.trust_tier),
    sourceTierImpact profile.trust_tier⟩]
  ++ (if profile.is_official then [⟨"Official source", true, 10⟩] else [])
  ++ [⟨"Oracle confidence", decide (0 ≤ confidenceImpact confidence_pct),
       confidenceImpact confidence_pct⟩,
      ⟨"Content specificity", decide (0 ≤ specificityImpact spc),
       specificityImpact spc⟩,
      ⟨"Donation link analysis", decide (0 ≤ scamImpact dt), scamImpact dt⟩,
      ⟨"Freshness", decide (0 ≤ freshnessImpact fv), freshnessImpact fv⟩]

/-- Clamps an integer score into the percentage range [0, 100]. -/
def clampPct (x : Int) : Int := max 0 (min 100 x)

/-- Modelled from the spec: the fixed status thresholds (§4.6) — at least 85
verified, at least 65 likely_credible, at least 40 needs_verification, at
least 20 suspicious, below 20 likely_fake. -/
def statusOf (p : Int) : CredStatus :=
  if 85 ≤ p then .verified
  else if 65 ≤ p then .likely_credible
  else if 40 ≤ p then .needs_verification
  else if 20 ≤ p then .suspicious
  else .likely_fake

/-- Rank of a status along the percentage order, likely_fake lowest. -/
def statusRank : CredStatus → Nat
  | .likely_fake => 0
  | .suspicious => 1
  | .needs_verification => 2
  | .likely_credible => 3
  | .verified => 4

/-- Modelled from the spec: the fixed per-status recommendation template
(§4.6). -/
def recommendationFor : CredStatus → String
  | .verified => "Trusted official information; safe to act on."
  | .likely_credible => "Credible report; cross-check before large commitments."
  | .needs_verification => "Verify with an independent source before acting."
  | .suspicious => "Treat with caution; several negative signals."
  | .likely_fake => "Likely misinformation; do not act without verification."

/-- Modelled from the spec: the Credibility Scoring Engine (§4.6), absent
from the repository sources. Sums the ordered factor impacts over the fixed
baseline, clamps into [0,100], and derives status and recommendation from the
percentage alone. -/
def computeCredibility (profile : SourceProfile) (confidence_pct : Nat)
    (spc : ContentSpecificity) (dt : DonationTrust)
    (fv : FreshnessVerdict) : CredibilityAssessmentResult :=
  let fs := credFactors profile confidence_pct spc dt fv
  let p := clampPct (CRED_BASELINE + (fs.map (fun f => f.impact)).sum)
  ⟨p, statusOf p, fs, recommendationFor (statusOf p)⟩

/-! ## Result Assembler and pipeline (spec §4.7, §2) -/

/-- Readable name of a disaster type for the normalized summary. -/
def disasterTypeText : DisasterType → String
  | .earthquake => "earthquake"
  | .flood => "flood"
  | .hurricane => "hurricane"
  | .wildfire => "wildfire"
  | .tsunami => "tsunami"
  | .landslide => "landslide"
  | .other => "other"
  | .unknown => "unknown"

/-- Readable name of a need type for the normalized summary. -/
def needTypeText : NeedType → String
  | .medical => "medical"
  | .food => "food"
  | .rescue => "rescue"
  | .shelter => "shelter"
  | .water => "water"
  | .other => "other"
  | .unknown => "unknown"

/-- Readable name of an urgency level for the normalized summary. -/
def urgencyText : Urgency → String
  | .critical => "critical"
  | .high => "high"
  | .medium => "medium"
  | .low => "low"

/-- Modelled from the spec: the short templated summary sentence combining
disaster type, need type, urgency and location (§4.7). -/
def normalizedTextOf (c : ClassificationResult) : String :=
  "Report of " ++ disasterTypeText c.disaster_type
    ++ " with " ++ needTypeText c.need_type ++ " need, "
    ++ urgencyText c.urgency ++ " urgency"
    ++ (match c.location_raw_text with
        | some t => " at " ++ t
        | none => "")

/-- The final structured record per spec §3 and §6, one per intake call. -/
structure DisasterReport where
  request_id : String
  timestamp : Nat
  disaster_type : DisasterType
  need_type : NeedType
  urgency : Urgency
  confidence_pct : Nat
  location : ResolvedLocation
  people_estimates : List (String × Nat)
  contact_info : Option String
  credibility : CredibilityAssessmentResult
  source_analysis : SourceProfile
  donation_analysis : DonationAnalysisResult
  freshness_analysis : FreshnessAssessmentResult
  normalized_text : String
  source_language : String
deriving DecidableEq, Repr

/-- The single user-visible failure message, for intake with no extractable
text (spec §7c). -/
def INVALID_INTAKE_ERROR : String := "No text could be extracted from the input"

/-- Modelled from the spec: the normalization-and-trust pipeline with its
Result Assembler (§2, §4.7), absent from the repository sources. The
external collaborators appear as explicit arguments: the oracle's raw
response (already degraded to none on transport failure after the bounded
retry) and the geocoder. Intake whose text is empty or whitespace-only is
the sole error; every other input assembles a complete record from the
component outputs, with a caller-supplied fresh request identifier and the
intake timestamp. -/
def runPipeline (text : String) (source : Option String) (timestamp : Nat)
    (oracle : Option OracleRaw) (geocoder : String → Option (Rat × Rat))
    (request_id : String) : Except String DisasterReport :=
  if strBlank text then .error INVALID_INTAKE_ERROR
  else
    let profile := classifyPlatform source
    let cls := validateOracle oracle
    let loc := resolveLocation cls.location_raw_text geocoder
    let don := analyzeDonations text
    let fresh := analyzeFreshness text
    let spc := contentSpecificityOf text cls.location_raw_text.isSome
    let cred := computeCredibility profile cls.confidence_pct spc
      don.donation_trust fresh.freshness
    .ok ⟨request_id, timestamp, cls.disaster_type, cls.need_type, cls.urgency,
         cls.confidence_pct, loc, cls.people_estimates, cls.contact_info,
         cred, profile, don, fresh, normalizedTextOf cls, "en"⟩

/-- Replaces the generated request identifier by a fixed value, leaving every
other field of the report intact. -/
def eraseRequestId (r : DisasterReport) : DisasterReport :=
  { r with request_id := "" }

/-- Modelled from the spec: the host of a URL — the part after the scheme up
to the first slash — which §6 says should become the source-platform hint
for URL inputs. -/
def urlHost (u : String) : String :=
  let cs := u.toList
  let rest :=
    if "https://".toList.isPrefixOf cs then cs.drop 8
    else if "http://".toList.isPrefixOf cs then cs.drop 7
    else cs
  String.mk (rest.takeWhile (fun c => c != '/'))

/-! ## Claim theorems -/

/-- Claim C1: for every credibility computation the percentage is an integer
in [0,100] equal to the clamped sum of the factor impacts plus the fixed
baseline, and the status is a pure, monotonic function of the percentage via
the fixed thresholds (at least 85 verified, at least 65 likely_credible, at
least 40 needs_verification, at least 20 suspicious, below 20 likely_fake). -/
theorem C1_credibility_assessment (profile : SourceProfile) (c : Nat)
    (spc : ContentSpecificity) (dt : DonationTrust) (fv : FreshnessVerdict)
    (p q : Int) (hpq : p ≤ q) :
    0 ≤ (computeCredibility profile c spc dt fv).percentage ∧
    (computeCredibility profile c spc dt fv).percentage ≤ 100 ∧
    (computeCredibility profile c spc dt fv).percentage =
      clampPct (CRED_BASELINE +
        (((computeCredibility profile c spc dt fv).factors.map
          (fun f => f.impact)).sum)) ∧
    (computeCredibility profile c spc dt fv).status =
      statusOf (computeCredibility profile c spc dt fv).percentage ∧
    statusRank (statusOf p) ≤ statusRank (statusOf q) ∧
    (85 ≤ p → statusOf p = .verified) ∧
    (65 ≤ p → p < 85 → statusOf p = .likely_credible) ∧
    (40 ≤ p → p < 65 → statusOf p = .needs_verification) ∧
    (20 ≤ p → p < 40 → statusOf p = .suspicious) ∧
    (p < 20 → statusOf p = .likely_fake) := by
  refine ⟨?_, ?_, rfl, rfl, ?_, ?_, ?_, ?_, ?_, ?_⟩
  · show 0 ≤ clampPct (CRED_BASELINE +
      (((credFactors profile c spc dt fv).map (fun f => f.impact)).sum))
    unfold clampPct
    omega
  · show clampPct (CRED_BASELINE +
      (((credFactors profile c spc dt fv).map (fun f => f.impact)).sum)) ≤ 100
    unfold clampPct
    omega
  · unfold statusOf
    split_ifs <;> simp only [statusRank] <;> omega
  · intro h1
    unfold statusOf
    rw [if_pos h1]
  · intro h1 h2
    unfold statusOf
    rw [if_neg (by omega), if_pos h1]
  · intro h1 h2
    unfold statusOf
    rw [if_neg (by omega), if_neg (by omega), if_pos h1]
  · intro h1 h2
    unfold statusOf
    rw [if_neg (by omega), if_neg (by omega), if_neg (by omega), if_pos h1]
  · intro h1
    unfold statusOf
    rw [if_neg (by omega), if_neg (by omega), if_neg (by omega), if_neg (by omega)]

/-- Witness for C1 at a concrete scoring input and percentage pair. -/
theorem C1_credibility_assessment_witness :
    0 ≤ (computeCredibility webProfile 80 .specific .none_found .current).percentage ∧
    (computeCredibility webProfile 80 .specific .none_found .current).percentage ≤ 100 ∧
    (computeCredibility webProfile 80 .specific .none_found .current).percentage =
      clampPct (CRED_BASELINE +
        (((computeCredibility webProfile 80 .specific .none_found .current).factors.map
          (fun f => f.impact)).sum)) ∧
    (computeCredibility webProfile 80 .specific .none_found .current).status =
      statusOf (computeCredibility webProfile 80 .specific .none_found .current).percentage ∧
    statusRank (statusOf 30) ≤ statusRank (statusOf 90) ∧
    (85 ≤ (30 : Int) → statusOf 30 = .verified) ∧
    (65 ≤ (30 : Int) → (30 : Int) < 85 → statusOf 30 = .likely_credible) ∧
    (40 ≤ (30 : Int) → (30 : Int) < 65 → statusOf 30 = .needs_verification) ∧
    (20 ≤ (30 : Int) → (30 : Int) < 40 → statusOf 30 = .suspicious) ∧
    ((30 : Int) < 20 → statusOf 30 = .likely_fake) :=
  C1_credibility_assessment webProfile 80 .specific .none_found .current 30 90 (by decide)

/-- Claim C2: two pipeline runs on identical text, source, timestamp and
component inputs are identical except for the request identifier; in
particular the credibility assessment, its factor list included, is
reproduced exactly. -/
theorem C2_pipeline_determinism (text : String) (source : Option String)
    (ts : Nat) (oracle : Option OracleRaw)
    (geocoder : String → Option (Rat × Rat)) (r1 r2 : String) :
    (runPipeline text source ts oracle geocoder r1).map eraseRequestId =
      (runPipeline text source ts oracle geocoder r2).map eraseRequestId ∧
    (runPipeline text source ts oracle geocoder r1).toOption.map
        (fun rep => rep.credibility) =
      (runPipeline text source ts oracle geocoder r2).toOption.map
        (fun rep => rep.credibility) := by
  cases hb : strBlank text <;>
    simp [runPipeline, hb, eraseRequestId, Except.map, Except.toOption]

/-- Claim C3: the donation verdict is none_found exactly when no URL-like or
payment-platform token is detected in the text, and then both match sets are
empty. -/
theorem C3_none_found_iff_no_tokens (text : String) :
    ((analyzeDonations text).donation_trust = DonationTrust.none_found ↔
      detectedPaymentTokens text = []) ∧
    ((analyzeDonations text).donation_trust = DonationTrust.none_found →
      (analyzeDonations text).scam_indicators_found = [] ∧
      (analyzeDonations text).legitimate_charities_found = []) := by
  by_cases h : detectedPaymentTokens text = []
  · simp [analyzeDonations, h]
  · simp only [analyzeDonations, if_neg h]
    constructor
    · simp only [h, iff_false]
      split_ifs <;> simp
    · intro hv
      exfalso
      revert hv
      split_ifs <;> simp

/-- Claim C4: when URL-like or payment tokens are present, scam evidence
dominates — any denylist match gives scam_likely regardless of allowlist
matches, else any allowlist match gives verified, else unverified — and both
match sets are reported in full either way. -/
theorem C4_verdict_priority (text : String)
    (h : detectedPaymentTokens text ≠ []) :
    (analyzeDonations text).scam_indicators_found =
      SCAM_DENYLIST.filter (fun p => strContains (lowerString text) p) ∧
    (analyzeDonations text).legitimate_charities_found =
      CHARITY_ALLOWLIST.filter (fun p => strContains (lowerString text) p) ∧
    ((analyzeDonations text).scam_indicators_found ≠ [] →
      (analyzeDonations text).donation_trust = .scam_likely) ∧
    ((analyzeDonations text).scam_indicators_found = [] →
      (analyzeDonations text).legitimate_charities_found ≠ [] →
      (analyzeDonations text).donation_trust = .verified) ∧
    ((analyzeDonations text).scam_indicators_found = [] →
      (analyzeDonations text).legitimate_charities_found = [] →
      (analyzeDonations text).donation_trust = .unverified) := by
  by_cases hs : SCAM_DENYLIST.filter (fun p => strContains (lowerString text) p) = [] <;>
    by_cases hc : CHARITY_ALLOWLIST.filter (fun p => strContains (lowerString text) p) = [] <;>
      simp [analyzeDonations, h, hs, hc]

/-- Witness for C4 at a text carrying a scam-pattern link and a known
charity domain at once. -/
theorem C4_verdict_priority_witness :
    (analyzeDonations "Donate now at https://redcross.org or urgent-donate.tk !!!").scam_indicators_found =
      SCAM_DENYLIST.filter (fun p =>
        strContains (lowerString "Donate now at https://redcross.org or urgent-donate.tk !!!") p) ∧
    (analyzeDonations "Donate now at https://redcross.org or urgent-donate.tk !!!").legitimate_charities_found =
      CHARITY_ALLOWLIST.filter (fun p =>
        strContains (lowerString "Donate now at https://redcross.org or urgent-donate.tk !!!") p) ∧
    ((analyzeDonations "Donate now at https://redcross.org or urgent-donate.tk !!!").scam_indicators_found ≠ [] →
      (analyzeDonations "Donate now at https://redcross.org or urgent-donate.tk !!!").donation_trust = .scam_likely) ∧
    ((analyzeDonations "Donate now at https://redcross.org or urgent-donate.tk !!!").scam_indicators_found = [] →
      (analyzeDonations "Donate now at https://redcross.org or urgent-donate.tk !!!").legitimate_charities_found ≠ [] →
      (analyzeDonations "Donate now at https://redcross.org or urgent-donate.tk !!!").donation_trust = .verified) ∧
    ((analyzeDonations "Donate now at https://redcross.org or urgent-donate.tk !!!").scam_indicators_found = [] →
      (analyzeDonations "Donate now at https://redcross.org or urgent-donate.tk !!!").legitimate_charities_found = [] →
      (analyzeDonations "Donate now at https://redcross.org or urgent-donate.tk !!!").donation_trust = .unverified) :=
  C4_verdict_priority "Donate now at https://redcross.org or urgent-donate.tk !!!" (by decide)

/-- Claim C5: intake whose text is empty or whitespace-only is the one and
only condition the pipeline surfaces as a failure, as a single human-readable
error and with no report produced; every other input yields a complete
record. -/
theorem C5_invalid_intake_only_failure (text : String) (source : Option String)
    (ts : Nat) (oracle : Option OracleRaw)
    (geocoder : String → Option (Rat × Rat)) (rid : String) :
    (strBlank text = true →
      runPipeline text source ts oracle geocoder rid =
        Except.error INVALID_INTAKE_ERROR) ∧
    (strBlank text = false →
      ∃ rep : DisasterReport,
        runPipeline text source ts oracle geocoder rid = Except.ok rep) ∧
    (∀ e : String, runPipeline text source ts oracle geocoder rid = Except.error e →
      strBlank text = true ∧ e = INVALID_INTAKE_ERROR) := by
  cases hb : strBlank text with
  | true =>
    refine ⟨fun _ => by simp [runPipeline, hb], fun hf => by simp [hb] at hf, ?_⟩
    intro e he
    simp [runPipeline, hb] at he
    exact ⟨rfl, he.symm⟩
  | false =>
    refine ⟨fun ht => by simp [hb] at ht, fun _ => ?_, ?_⟩
    · simp [runPipeline, hb]
    · intro e he
      simp [runPipeline, hb] at he

/-- Counterexample to claim C6 as stated: for the concrete URL input
"https://earthquake.usgs.gov/event/123" the frontend posts the raw URL
string itself as the text, and the fixed tag "web" — not the URL's host
"earthquake.usgs.gov" — as the source hint. -/
theorem C6_counterexample :
    buildRequest .url "" "https://earthquake.usgs.gov/event/123" "" none =
      some (.analyze ⟨"https://earthquake.usgs.gov/event/123", "web"⟩) ∧
    urlHost "https://earthquake.usgs.gov/event/123" = "earthquake.usgs.gov" ∧
    ("web" : String) ≠ "earthquake.usgs.gov" := by
  refine ⟨by decide, by decide, by decide⟩

/-- Claim C6 as amended: for every URL-mode submission with a non-blank URL,
the frontend posts the raw URL string itself as the text together with the
constant source tag "web"; no fetching, extraction or host derivation
happens before the core is called. -/
theorem C6_url_submission (u : String) (h : strBlank u = false) :
    ∀ t iu : String, ∀ f : Option String,
      buildRequest .url t u iu f = some (.analyze ⟨u, "web"⟩) := by
  intro t iu f
  simp [buildRequest, h]

/-- Witness for C6 (amended) at a concrete URL. -/
theorem C6_url_submission_witness :
    buildRequest .url "" "https://example.org/report" "" none =
      some (.analyze ⟨"https://example.org/report", "web"⟩) :=
  C6_url_submission "https://example.org/report" (by decide) "" "" none

/-- Claim C7: the platform classifier is a total pure function — the first
exact match of the normalized identifier in the static table wins, any
identifier with no match resolves to the default low-trust web profile
(trust tier 5, not official) rather than an error, an absent identifier to
the user-report default — and the frontend display lookup falls back to the
web icon the same way. -/
theorem C7_platform_classifier_total (s : String) :
    (∀ p : SourceProfile, PLATFORM_TABLE.lookup (lowerString s) = some p →
      classifyPlatform (some s) = p) ∧
    (PLATFORM_TABLE.lookup (lowerString s) = none →
      classifyPlatform (some s) = webProfile) ∧
    classifyPlatform none = userReportProfile ∧
    webProfile.platform_key = "web" ∧
    webProfile.trust_tier = 5 ∧
    webProfile.is_official = false ∧
    userReportProfile.platform_key = "user_report" ∧
    userReportProfile.trust_tier = 5 ∧
    userReportProfile.is_official = false ∧
    (∀ ic : IconConfig, PLATFORM_ICONS.lookup s = some ic →
      getPlatformDisplay (some s) = ic) ∧
    (PLATFORM_ICONS.lookup s = none → getPlatformDisplay (some s) = webIcon) ∧
    getPlatformDisplay none = webIcon := by
  refine ⟨?_, ?_, rfl, rfl, rfl, rfl, rfl, rfl, rfl, ?_, ?_, rfl⟩
  · intro p hp
    simp [classifyPlatform, hp]
  · intro hn
    simp [classifyPlatform, hn]
  · intro ic hic
    simp [getPlatformDisplay, hic]
  · intro hn
    simp [getPlatformDisplay, hn]

/-- Claim C8: a potentially_outdated freshness verdict always carries a
non-null warning, and when no temporal cue at all is detected the verdict is
current with a null warning. -/
theorem C8_freshness_invariants (text : String) :
    ((analyzeFreshness text).freshness = .potentially_outdated →
      (analyzeFreshness text).warning ≠ none) ∧
    (detectedHistoricalPhrases text = [] → extractedAgeDays text = none →
      analyzeFreshness text = ⟨.current, none⟩) := by
  constructor
  · intro hout
    cases hh : detectedHistoricalPhrases text with
    | cons c tl => simp [analyzeFreshness, hh]
    | nil =>
      cases ha : extractedAgeDays text with
      | none => simp [analyzeFreshness, hh, ha] at hout
      | some d =>
        by_cases hd : STALENESS_THRESHOLD_DAYS < d
        · simp [analyzeFreshness, hh, ha, hd]
        · simp [analyzeFreshness, hh, ha, hd] at hout
  · intro h1 h2
    simp [analyzeFreshness, h1, h2]

/-- Claim C9: in every resolved location the latitude and longitude are both
present or both null, and a null raw mention yields the unresolved state with
every location field null. -/
theorem C9_location_invariants (raw : Option String)
    (geocoder : String → Option (Rat × Rat)) :
    ((resolveLocation raw geocoder).latitude = none ↔
      (resolveLocation raw geocoder).longitude = none) ∧
    (raw = none →
      resolveLocation raw geocoder =
        ⟨none, none, none, none, none, none, .unresolved⟩) := by
  cases raw with
  | none => simp [resolveLocation]
  | some t => cases hg : geocoder t <;> simp [resolveLocation, hg]

/-- Claim C10: a submission whose selected mode has a blank input issues no
HTTP request and leaves the result null, so neither a report nor an error is
shown; and the submit button is disabled whenever all four inputs are empty,
whatever the loading flag. -/
theorem C10_blank_input_no_request (t u iu : String) (f : Option String)
    (ld : Bool) (server : FrontendRequest → Except String DisasterReport) :
    (strBlank t = true →
      buildRequest .text t u iu f = none ∧
      handleSubmitResult .text t u iu f server = none) ∧
    (strBlank u = true →
      buildRequest .url t u iu f = none ∧
      handleSubmitResult .url t u iu f server = none) ∧
    (f = none → iu = "" →
      buildRequest .image t u iu f = none ∧
      handleSubmitResult .image t u iu f server = none) ∧
    submitDisabled ld "" "" "" none = true := by
  refine ⟨fun h => ?_, fun h => ?_, fun hf hiu => ?_, ?_⟩
  · constructor <;> simp [buildRequest, handleSubmitResult, h]
  · constructor <;> simp [buildRequest, handleSubmitResult, h]
  · constructor <;> simp [buildRequest, handleSubmitResult, hf, hiu]
  · simp [submitDisabled]
